import Mathlib

/-!
Verification development for the drawing-command-buffer core of the
`nionui` repository (`nion/ui/DrawingContext.py`).

The Python module records drawing commands as tagged tuples in a list
(`DrawingContext.commands`) and replays them through two interpreters:
`to_js` (stateless, emits canvas-API calls) and `to_svg` (stateful, keeps
an explicit graphics-state stack and emits an SVG document).

Embedding conventions:
* Python floats are modelled as exact rationals (`ℚ`); all arithmetic the
  claims exercise (`x + w`, `x1 / w`, `x * 100`) is exact on the inputs
  considered.  `numStr` renders an integral rational the way Python's
  `str` renders the corresponding float (`10.0`).
* Python exceptions raised during replay (IndexError on `restore` with an
  empty context stack, ValueError from `int(...)` in the font shorthand
  parser, TypeError from using an undeclared gradient, ZeroDivisionError
  in gradient normalization) are modelled by `Option`: a step that raises
  returns `none` and aborts the replay.
* The `image` command's pixel payload is PNG/base64-encoded by external
  libraries (`scipy`, `base64`); the command here carries the encoded
  string directly, since no claim depends on the encoding itself.
-/

/-- Helper for `pySplitSpace`: the accumulated current piece is kept in
reverse order. -/
def splitSpaceAux : List Char → List Char → List String
  | [], cur => [String.mk cur.reverse]
  | c :: rest, cur =>
      if c = ' ' then String.mk cur.reverse :: splitSpaceAux rest []
      else splitSpaceAux rest (c :: cur)

/-- Python `str.split(" ")`: split on every single space, keeping empty
pieces between consecutive spaces. -/
def pySplitSpace (s : String) : List String :=
  splitSpaceAux s.toList []

/-- Python `str.endswith("px")` on a token. -/
def endsWithPx (tok : String) : Bool :=
  match tok.toList.reverse with
  | 'x' :: 'p' :: _ => true
  | _ => false

/-- Python `tok[0:-2]`: the token without its final two characters. -/
def dropLast2 (tok : String) : String :=
  String.mk tok.toList.dropLast.dropLast

/-- Result of Python `str.split(" ")` followed by dropping empty pieces,
as done by the font shorthand parser in `to_svg`. -/
def fontTokens (s : String) : List String :=
  (pySplitSpace s).filter (fun t => t ≠ "")

/-- Value of a list of decimal digit characters, `none` if the list is
empty or contains a non-digit: the core of Python `int(str)`. -/
def pyIntDigits (cs : List Char) : Option Nat :=
  cs.foldl
    (fun acc c => acc.bind (fun n => if c.isDigit then some (n * 10 + (c.toNat - 48)) else none))
    (if cs.isEmpty then none else some 0)

/-- Python `int(s)` on a token: optional sign followed by digits; `none`
models a raised `ValueError`. -/
def pyInt (s : String) : Option Int :=
  match s.toList with
  | '-' :: rest => (pyIntDigits rest).map (fun n => -(n : Int))
  | '+' :: rest => (pyIntDigits rest).map (fun n => (n : Int))
  | cs => (pyIntDigits cs).map (fun n => (n : Int))

/-- Python `int()` applied to a rational: truncation toward zero. -/
def pyTrunc (q : ℚ) : Int :=
  if 0 ≤ q then q.floor else -(-q).floor

/-- Rendering of a numeric command argument into output text.  The source
stores arguments as Python floats and formats them with `str`; integral
values print as `10.0`.  Non-integral rationals are rendered as fractions,
an exact stand-in not exercised by the claims. -/
def numStr (q : ℚ) : String :=
  if q.den = 1 then toString q.num ++ ".0" else toString q.num ++ "/" ++ toString q.den

/-- The escaping `xml.sax.saxutils.escape` performs: `&`, `<`, `>`. -/
def escapeChar (c : Char) : String :=
  if c = '&' then "&amp;" else if c = '<' then "&lt;" else if c = '>' then "&gt;" else String.singleton c

/-- Model of `xml.sax.saxutils.escape`. -/
def escapeXml (s : String) : String :=
  String.join (s.toList.map escapeChar)

/-- The closed command vocabulary of `DrawingContext`, one constructor per
command tag appended by the typed builder methods. -/
inductive DCommand where
  | save : DCommand
  | restore : DCommand
  | beginPath : DCommand
  | closePath : DCommand
  | clip (x y w h : ℚ) : DCommand
  | translate (x y : ℚ) : DCommand
  | scale (x y : ℚ) : DCommand
  | rotate (degrees : ℚ) : DCommand
  | moveTo (x y : ℚ) : DCommand
  | lineTo (x y : ℚ) : DCommand
  | rect (x y w h : ℚ) : DCommand
  | arc (x y r sa ea : ℚ) (ac : Bool) : DCommand
  | arcTo (x1 y1 x2 y2 r : ℚ) : DCommand
  | image (w h : Nat) (pngB64 : String) (imageId : Int) (a b c d : ℚ) : DCommand
  | stroke : DCommand
  | sleep (duration : ℚ) : DCommand
  | fill : DCommand
  | fillText (text : String) (x y maxWidth : ℚ) : DCommand
  | fillStyleGradient (commandVar : Int) : DCommand
  | fillStyle (color : String) : DCommand
  | font (shorthand : String) : DCommand
  | textAlign (a : String) : DCommand
  | textBaseline (a : String) : DCommand
  | strokeStyle (color : String) : DCommand
  | lineWidth (w : ℚ) : DCommand
  | lineDash (d : ℚ) : DCommand
  | lineCap (a : String) : DCommand
  | lineJoin (a : String) : DCommand
  | gradient (commandVar : Int) (w h x1 y1 x2 y2 : ℚ) : DCommand
  | colorStop (commandVar : Int) (x : ℚ) (color : String) : DCommand
  | latency (t : ℚ) : DCommand
  | statistics (statId : String) : DCommand
deriving DecidableEq

/-- One canvas-API call emitted by `to_js` for a single command: the body
of the `for command in self.commands` loop, which is stateless. -/
def jsCmd : DCommand → String
  | .save => "ctx.save();"
  | .restore => "ctx.restore();"
  | .beginPath => "ctx.beginPath();"
  | .closePath => "ctx.closePath();"
  | .clip x y w h =>
      "ctx.beginPath();" ++
      "ctx.rect(" ++ numStr x ++ ", " ++ numStr y ++ ", " ++ numStr w ++ ", " ++ numStr h ++ ");" ++
      "ctx.clip();"
  | .translate x y => "ctx.translate(" ++ numStr x ++ ", " ++ numStr y ++ ");"
  | .scale x y => "ctx.scale(" ++ numStr x ++ ", " ++ numStr y ++ ");"
  | .rotate degrees => "ctx.rotate(" ++ numStr degrees ++ ");"
  | .moveTo x y => "ctx.moveTo(" ++ numStr x ++ ", " ++ numStr y ++ ");"
  | .lineTo x y => "ctx.lineTo(" ++ numStr x ++ ", " ++ numStr y ++ ");"
  | .rect x y w h =>
      "ctx.rect(" ++ numStr x ++ ", " ++ numStr y ++ ", " ++ numStr w ++ ", " ++ numStr h ++ ");"
  | .arc x y r sa ea ac =>
      "ctx.arc(" ++ numStr x ++ ", " ++ numStr y ++ ", " ++ numStr r ++ ", " ++ numStr sa ++ ", " ++
        numStr ea ++ ", " ++ (if ac then "true" else "false") ++ ");"
  | .arcTo x1 y1 x2 y2 r =>
      "ctx.arcTo(" ++ numStr x1 ++ ", " ++ numStr y1 ++ ", " ++ numStr x2 ++ ", " ++ numStr y2 ++
        ", " ++ numStr r ++ ");"
  | .image _ _ _ _ a b c d =>
      "ctx.rect(" ++ numStr a ++ ", " ++ numStr b ++ ", " ++ numStr c ++ ", " ++ numStr d ++ ");"
  | .stroke => "ctx.stroke();"
  | .sleep _ => ""
  | .fill => "ctx.fill();"
  | .fillText text x y maxWidth =>
      "ctx.fillText('" ++ escapeXml text ++ "', " ++ numStr x ++ ", " ++ numStr y ++
        (if maxWidth ≠ 0 then ", " ++ numStr maxWidth else "") ++ ");"
  | .fillStyleGradient commandVar => "ctx.fillStyle = grad" ++ toString commandVar ++ ";"
  | .fillStyle color => "ctx.fillStyle = '" ++ color ++ "';"
  | .font shorthand => "ctx.font = '" ++ shorthand ++ "';"
  | .textAlign a => "ctx.textAlign = '" ++ a ++ "';"
  | .textBaseline a => "ctx.textBaseline = '" ++ a ++ "';"
  | .strokeStyle color => "ctx.strokeStyle = '" ++ color ++ "';"
  | .lineWidth w => "ctx.lineWidth = " ++ numStr w ++ ";"
  | .lineDash d => "ctx.lineDash = " ++ numStr d ++ ";"
  | .lineCap a => "ctx.lineCap = '" ++ a ++ "';"
  | .lineJoin a => "ctx.lineJoin = '" ++ a ++ "';"
  | .gradient commandVar _ _ x1 y1 x2 y2 =>
      "var grad" ++ toString commandVar ++ " = ctx.createLinearGradient(" ++ numStr x1 ++ ", " ++
        numStr y1 ++ ", " ++ numStr (x2 - x1) ++ ", " ++ numStr (y2 - y1) ++ ");"
  | .colorStop commandVar x color =>
      "grad" ++ toString commandVar ++ ".addColorStop(" ++ numStr x ++ ", '" ++ color ++ "');"
  | .latency _ => ""
  | .statistics _ => ""

/-- `DrawingContext.to_js` over a command list: concatenation of the
per-command output (the loop only ever appends to `js`). -/
def to_js_commands (cs : List DCommand) : String :=
  String.join (cs.map jsCmd)

/-- The live graphics state of the `to_svg` interpreter: exactly the
fields snapshotted into the context dictionary on `save` and restored
on `restore`. -/
structure LiveState where
  path : String
  transform : List String
  fillStyle : Option String
  strokeStyle : Option String
  lineCap : String
  lineJoin : String
  lineWidth : ℚ
  lineDash : Option ℚ
  fontStyle : Option String
  fontWeight : Option String
  fontSize : Option Int
  fontFamily : Option String
  textAnchor : String
  textBaseline : String
  closers : List String
deriving DecidableEq

/-- Initial live state: the local-variable initializations at the top of
`to_svg`. -/
def initLive : LiveState :=
  { path := ""
    transform := []
    fillStyle := none
    strokeStyle := none
    lineCap := "square"
    lineJoin := "bevel"
    lineWidth := 1
    lineDash := none
    fontStyle := none
    fontWeight := none
    fontSize := none
    fontFamily := none
    textAnchor := "start"
    textBaseline := "alphabetic"
    closers := [] }

/-- Full interpreter state of `to_svg`: live fields, the two output
accumulators, the clip-id counter, the context stack and the pending
gradient definition. -/
structure SvgState where
  svg : String
  defs : String
  live : LiveState
  nextClipId : Nat
  stack : List LiveState
  gradientStart : Option String
  gradientStops : List String
deriving DecidableEq

/-- Initial interpreter state of `to_svg` (`next_clip_id = 1`, empty
accumulators, empty context stack). -/
def initSvgState : SvgState :=
  { svg := ""
    defs := ""
    live := initLive
    nextClipId := 1
    stack := []
    gradientStart := none
    gradientStops := [] }

/-- The transform attribute fragment: empty when the transform list is
empty, else the space-joined list wrapped in ` transform='...'`. -/
def transformStr (ts : List String) : String :=
  if ts.isEmpty then "" else " transform='" ++ String.intercalate " " ts ++ "'"

/-- The dash-array attribute fragment: Python tests `if line_dash`, so
both an unset dash and a dash of `0.0` produce nothing. -/
def dashStr : Option ℚ → String
  | none => ""
  | some d => if d = 0 then "" else " stroke-dasharray='" ++ numStr d ++ ", " ++ numStr d ++ "'"

/-- Decomposed font fields maintained while parsing the font shorthand. -/
structure FontState where
  style : Option String
  weight : Option String
  size : Option Int
  family : Option String
deriving DecidableEq

/-- One token of the font shorthand, in the source's test order: `italic`,
then `bold`, then the `px` test (whose `int()` call raises -- `none` --
when the stem is not an integer literal, and falls through to the family
branch when the integer is not positive), else family. -/
def fontTokStep (f : FontState) (tok : String) : Option FontState :=
  if tok = "italic" then some { f with style := some "italic" }
  else if tok = "bold" then some { f with weight := some "bold" }
  else if endsWithPx tok then
    match pyInt (dropLast2 tok) with
    | none => none
    | some n => if 0 < n then some { f with size := some n } else some { f with family := some tok }
  else some { f with family := some tok }

/-- The `font` command handler: reset all four fields, then fold over the
whitespace-split tokens. -/
def parseFont (shorthand : String) : Option FontState :=
  (fontTokens shorthand).foldlM fontTokStep
    { style := none, weight := none, size := none, family := none }

/-- The lookup table for `textAlign` (`text_anchors.get(arg, "start")`). -/
def textAnchorOf (a : String) : String :=
  if a = "start" then "start"
  else if a = "end" then "end"
  else if a = "left" then "start"
  else if a = "center" then "middle"
  else if a = "right" then "end"
  else "start"

/-- The lookup table for `textBaseline` (note the source's `ideaographic`
key, kept verbatim). -/
def textBaselineOf (a : String) : String :=
  if a = "top" then "hanging"
  else if a = "hanging" then "hanging"
  else if a = "middle" then "middle"
  else if a = "alphabetic" then "alphabetic"
  else if a = "ideaographic" then "ideaographic"
  else if a = "bottom" then "bottom"
  else "alphabetic"

/-- The lookup table for `lineCap`. -/
def lineCapOf (a : String) : String :=
  if a = "square" then "square" else if a = "round" then "round"
  else if a = "butt" then "butt" else "square"

/-- The lookup table for `lineJoin`. -/
def lineJoinOf (a : String) : String :=
  if a = "round" then "round" else if a = "miter" then "miter"
  else if a = "bevel" then "bevel" else "bevel"

/-- The font attribute fragment emitted by `fillText`: one attribute per
font field currently set (Python truthiness; sizes are stored only when
positive, so `if font_size` coincides with presence). -/
def fontAttrStr (l : LiveState) : String :=
  (match l.fontStyle with
   | some v => " font-style='" ++ v ++ "'"
   | none => "") ++
  (match l.fontWeight with
   | some v => " font-weight='" ++ v ++ "'"
   | none => "") ++
  (match l.fontSize with
   | some n => " font-size='" ++ toString n ++ "pt'"
   | none => "") ++
  (match l.fontFamily with
   | some v => " font-family='" ++ v ++ "'"
   | none => "")

/-- One iteration of the `to_svg` command loop.  `none` models a Python
exception aborting the replay (see the module comment). -/
def svgStep (s : SvgState) : DCommand → Option SvgState
  | .save =>
      some { s with stack := s.live :: s.stack, live := { s.live with closers := [] } }
  | .restore =>
      match s.stack with
      | [] => none
      | f :: rest =>
          some { s with svg := s.svg ++ String.join s.live.closers, live := f, stack := rest }
  | .beginPath => some { s with live := { s.live with path := "" } }
  | .closePath => some { s with live := { s.live with path := s.live.path ++ " Z" } }
  | .moveTo x y =>
      some { s with live := { s.live with path := s.live.path ++ " M " ++ numStr x ++ " " ++ numStr y } }
  | .lineTo x y =>
      some { s with live := { s.live with path := s.live.path ++ " L " ++ numStr x ++ " " ++ numStr y } }
  | .rect x y w h =>
      some { s with live := { s.live with path := (s.live.path
        ++ " M " ++ numStr x ++ " " ++ numStr y
        ++ " L " ++ numStr (x + w) ++ " " ++ numStr y
        ++ " L " ++ numStr (x + w) ++ " " ++ numStr (y + h)
        ++ " L " ++ numStr x ++ " " ++ numStr (y + h)
        ++ " Z") } }
  | .arc _ _ _ _ _ _ => some s
  | .arcTo _ _ _ _ _ => some s
  | .clip x y w h =>
      some { s with
        defs := s.defs ++ "<clipPath id='clip" ++ toString s.nextClipId ++ "'><rect x='"
          ++ numStr x ++ "' y='" ++ numStr y ++ "' width='" ++ numStr w ++ "' height='"
          ++ numStr h ++ "'" ++ transformStr s.live.transform ++ " /></clipPath>"
        svg := s.svg ++ "<g style='clip-path: url(#clip" ++ toString s.nextClipId ++ ");'>"
        nextClipId := s.nextClipId + 1
        live := { s.live with closers := s.live.closers ++ ["</g>"] } }
  | .translate x y =>
      some { s with live := { s.live with transform :=
        s.live.transform ++ ["translate(" ++ numStr x ++ "," ++ numStr y ++ ")"] } }
  | .scale x y =>
      some { s with live := { s.live with transform :=
        s.live.transform ++ ["scale(" ++ numStr x ++ "," ++ numStr y ++ ")"] } }
  | .rotate degrees =>
      some { s with live := { s.live with transform :=
        s.live.transform ++ ["rotate(" ++ numStr degrees ++ ")"] } }
  | .image _ _ pngB64 _ a b c d =>
      some { s with svg := s.svg ++ "<image x='" ++ numStr a ++ "' y='" ++ numStr b
        ++ "' width='" ++ numStr c ++ "' height='" ++ numStr d
        ++ "' xlink:href='data:image/png;base64," ++ pngB64 ++ "'"
        ++ transformStr s.live.transform ++ " />" }
  | .stroke =>
      match s.live.strokeStyle with
      | none => some s
      | some st =>
          some { s with svg := s.svg ++ "<path d='" ++ s.live.path
            ++ "' fill='transparent' stroke='" ++ st ++ "' stroke-width='" ++ numStr s.live.lineWidth
            ++ "' stroke-linejoin='" ++ s.live.lineJoin ++ "' stroke-linecap='" ++ s.live.lineCap
            ++ "'" ++ dashStr s.live.lineDash ++ transformStr s.live.transform ++ " />" }
  | .sleep _ => some s
  | .fill =>
      match s.live.fillStyle with
      | none => some s
      | some fs =>
          some { s with svg := s.svg ++ "<path d='" ++ s.live.path ++ "' fill='" ++ fs
            ++ "' stroke='transparent'" ++ transformStr s.live.transform ++ " />" }
  | .fillText text x y _ =>
      some { s with svg := s.svg ++ "<text x='" ++ numStr x ++ "' y='" ++ numStr y
        ++ "' text-anchor='" ++ s.live.textAnchor ++ "' alignment-baseline='" ++ s.live.textBaseline
        ++ "'" ++ fontAttrStr s.live ++ transformStr s.live.transform ++ ">"
        ++ escapeXml text ++ "</text>" }
  | .fillStyleGradient commandVar =>
      match s.gradientStart with
      | none => none
      | some gs =>
          some { s with
            defs := s.defs ++ gs ++ String.join s.gradientStops ++ "</linearGradient>"
            live := { s.live with fillStyle := some ("url(#grad" ++ toString commandVar ++ ")") } }
  | .fillStyle color => some { s with live := { s.live with fillStyle := some color } }
  | .font shorthand =>
      (parseFont shorthand).map fun f =>
        { s with live := { s.live with
            fontStyle := f.style, fontWeight := f.weight,
            fontSize := f.size, fontFamily := f.family } }
  | .textAlign a => some { s with live := { s.live with textAnchor := textAnchorOf a } }
  | .textBaseline a => some { s with live := { s.live with textBaseline := textBaselineOf a } }
  | .strokeStyle color => some { s with live := { s.live with strokeStyle := some color } }
  | .lineWidth w => some { s with live := { s.live with lineWidth := w } }
  | .lineDash d => some { s with live := { s.live with lineDash := some d } }
  | .lineCap a => some { s with live := { s.live with lineCap := lineCapOf a } }
  | .lineJoin a => some { s with live := { s.live with lineJoin := lineJoinOf a } }
  | .gradient commandVar w h x1 y1 x2 y2 =>
      if w = 0 ∨ h = 0 then none
      else
        some { s with gradientStart := some ("<linearGradient id='grad" ++ toString commandVar
          ++ "' x1='" ++ numStr (x1 / w) ++ "' y1='" ++ numStr (y1 / h)
          ++ "' x2='" ++ numStr (x2 / w) ++ "' y2='" ++ numStr (y2 / h) ++ "'>") }
  | .colorStop _ x color =>
      some { s with gradientStops := s.gradientStops
        ++ ["<stop offset='" ++ toString (pyTrunc (x * 100)) ++ "%' stop-color='" ++ color ++ "' />"] }
  | .latency _ => some s
  | .statistics _ => some s

/-- Replay of a command list by the `to_svg` interpreter, threading the
state; a raising step aborts the whole replay. -/
def svgReplay (s : SvgState) : List DCommand → Option SvgState
  | [] => some s
  | c :: cs =>
      match svgStep s c with
      | none => none
      | some s' => svgReplay s' cs

/-- Declared pixel dimensions of the output document. -/
structure SizeQ where
  width : ℚ
  height : ℚ
deriving DecidableEq

/-- The view-box rectangle supplied by the caller of `to_svg`. -/
structure ViewboxQ where
  left : ℚ
  top : ℚ
  width : ℚ
  height : ℚ
deriving DecidableEq

/-- `DrawingContext.to_svg` over a command list: replay, then wrap the
`defs` and body accumulators in the root `svg` element. -/
def to_svg_commands (cs : List DCommand) (size : SizeQ) (viewbox : ViewboxQ) : Option String :=
  (svgReplay initSvgState cs).map fun s =>
    "<svg version='1.1' baseProfile='full' width='" ++ numStr size.width
      ++ "' height='" ++ numStr size.height ++ "' viewBox='" ++ numStr viewbox.left ++ " "
      ++ numStr viewbox.top ++ " " ++ numStr viewbox.width ++ " " ++ numStr viewbox.height
      ++ "' xmlns='http://www.w3.org/2000/svg' xmlns:xlink='http://www.w3.org/1999/xlink'>"
      ++ "<defs>" ++ s.defs ++ "</defs>" ++ s.svg ++ "</svg>"

/-- The command buffer: its command list, the save/restore depth counter,
and whether a storage collaborator was configured at construction. -/
structure DrawingContext where
  commands : List DCommand
  save_count : Int
  storage : Bool
deriving DecidableEq

/-- A freshly constructed `DrawingContext()` without storage. -/
def initDrawingContext : DrawingContext :=
  { commands := [], save_count := 0, storage := false }

/-- `DrawingContext.copy_from`: two assertions that both save counts are
zero (`none` models an `AssertionError`), then the command list is
replaced by the source's. -/
def DrawingContext.copy_from (dc other : DrawingContext) : Option DrawingContext :=
  if dc.save_count = 0 ∧ other.save_count = 0 then
    some { dc with commands := other.commands }
  else none

/-- `DrawingContext.clear`: empty the command list and reset the counter. -/
def DrawingContext.clear (dc : DrawingContext) : DrawingContext :=
  { dc with commands := [], save_count := 0 }

/-- `DrawingContext.save`: append the command and increment the counter. -/
def DrawingContext.save (dc : DrawingContext) : DrawingContext :=
  { dc with commands := dc.commands ++ [DCommand.save], save_count := dc.save_count + 1 }

/-- `DrawingContext.restore`: append the command and decrement the counter
unconditionally (the source has no check). -/
def DrawingContext.restore (dc : DrawingContext) : DrawingContext :=
  { dc with commands := dc.commands ++ [DCommand.restore], save_count := dc.save_count - 1 }

/-- Whether a command is `save` or `restore`. -/
def isSR : DCommand → Bool
  | .save => true
  | .restore => true
  | _ => false

/-- Whether a command is `fill`. -/
def isFillCmd : DCommand → Bool
  | .fill => true
  | _ => false

/-- Whether a command sets the fill style (plain color or gradient). -/
def isFillStyleCmd : DCommand → Bool
  | .fillStyle _ => true
  | .fillStyleGradient _ => true
  | _ => false

/-- Whether a command is one of the three pure path-data appenders. -/
def isPathCmd : DCommand → Bool
  | .moveTo _ _ => true
  | .lineTo _ _ => true
  | .closePath => true
  | _ => false

/-- The path-data token a path command appends in `to_svg`. -/
def pathToken : DCommand → String
  | .moveTo x y => " M " ++ numStr x ++ " " ++ numStr y
  | .lineTo x y => " L " ++ numStr x ++ " " ++ numStr y
  | .closePath => " Z"
  | _ => ""

/-- The concatenation of path-data tokens of a command list. -/
def pathTokens : List DCommand → String
  | [] => ""
  | c :: cs => pathToken c ++ pathTokens cs

/-- Helper for `srBalanced`: current unmatched-save depth. -/
def srBalancedAux : Int → List DCommand → Bool
  | d, [] => d == 0
  | d, c :: cs =>
      if c = DCommand.save then srBalancedAux (d + 1) cs
      else if c = DCommand.restore then decide (0 < d) && srBalancedAux (d - 1) cs
      else srBalancedAux d cs

/-- A command sequence whose save and restore commands are balanced:
every restore is matched by an earlier save and every save by a later
restore at the same nesting. -/
def srBalanced (cs : List DCommand) : Bool :=
  srBalancedAux 0 cs

/-- Command sequences whose save/restore projection is a balanced Dyck
word, with arbitrary other commands interleaved at any depth. -/
inductive Neutral : List DCommand → Prop where
  | nil : Neutral []
  | cons_other {c : DCommand} {m : List DCommand} :
      isSR c = false → Neutral m → Neutral (c :: m)
  | block {m rest : List DCommand} :
      Neutral m → Neutral rest →
      Neutral (DCommand.save :: m ++ DCommand.restore :: rest)

/-- Command sequences that are concatenations of `save ... restore`
blocks whose interiors are `Neutral`: balanced save/restore with every
other command strictly inside at least one open save scope. -/
inductive Scoped : List DCommand → Prop where
  | nil : Scoped []
  | block {m rest : List DCommand} :
      Neutral m → Scoped rest →
      Scoped (DCommand.save :: m ++ DCommand.restore :: rest)

/-- A recorded call on the storage collaborator, carrying the buffer
passed as `self` (identified by its command list) and the layer id. -/
inductive LayerCall where
  | beginCall (buffer : List DCommand) (layerId : String) : LayerCall
  | endCall (buffer : List DCommand) (layerId : String) : LayerCall
  | drawCall (buffer : List DCommand) (layerId : String) : LayerCall
deriving DecidableEq

/-- `DrawingContext.begin_layer`: guarded by Python truthiness of the
layer id; with a truthy id it calls `self.__storage.begin_layer(self,
layer_id)`, which raises `AttributeError` (`none`) when no storage
collaborator was configured. -/
def DrawingContext.begin_layer (dc : DrawingContext) (layer_id : String) : Option (List LayerCall) :=
  if layer_id ≠ "" then
    if dc.storage then some [LayerCall.beginCall dc.commands layer_id] else none
  else some []

/-- `DrawingContext.end_layer`: same guard and delegation as
`begin_layer`. -/
def DrawingContext.end_layer (dc : DrawingContext) (layer_id : String) : Option (List LayerCall) :=
  if layer_id ≠ "" then
    if dc.storage then some [LayerCall.endCall dc.commands layer_id] else none
  else some []

/-- `DrawingContext.draw_layer`: no guard in the source; it always calls
`self.__storage.draw_layer(self, layer_id)` and therefore raises when no
storage collaborator was configured, whatever the id. -/
def DrawingContext.draw_layer (dc : DrawingContext) (layer_id : String) : Option (List LayerCall) :=
  if dc.storage then some [LayerCall.drawCall dc.commands layer_id] else none

/-- Buffer-mutating operations touching `save_count` over a buffer's
lifetime. -/
inductive BufOp where
  | save : BufOp
  | restore : BufOp
  | clear : BufOp
  | copyFrom (src : DrawingContext) : BufOp

/-- Apply one buffer operation; `copyFrom` can fail its assertions. -/
def applyOp (dc : DrawingContext) : BufOp → Option DrawingContext
  | .save => some dc.save
  | .restore => some dc.restore
  | .clear => some dc.clear
  | .copyFrom src => dc.copy_from src

/-- Apply a sequence of buffer operations. -/
def applyOps (dc : DrawingContext) : List BufOp → Option DrawingContext
  | [] => some dc
  | op :: ops =>
      match applyOp dc op with
      | none => none
      | some dc' => applyOps dc' ops

/-- Modelled from the claim's words: the number of `save` calls minus the
number of `restore` calls made since construction, the last `clear`, or
the last (successful) `copy_from`, folded left over the operation
sequence. -/
def save_count_spec (init : Int) : List BufOp → Int :=
  List.foldl
    (fun acc op =>
      match op with
      | BufOp.save => acc + 1
      | BufOp.restore => acc - 1
      | BufOp.clear => 0
      | BufOp.copyFrom _ => 0)
    init

/-- Shared state of two threads concurrently running
`LinearGradient.__init__`: the class attribute `LinearGradient.next`
(initially 1) and each thread's `command_var`. -/
structure GradRace where
  next : Int
  handle1 : Option Int
  handle2 : Option Int
deriving DecidableEq

/-- The atomic steps of the two constructors.  The source executes
`self.command_var = DrawingContext.LinearGradient.next` and, as a
separate later statement, `DrawingContext.LinearGradient.next += 1`,
with no lock held (contrast `draw_image`, which wraps its counter
read-and-increment in `__image_id_lock`), so a thread switch between the
two statements is possible. -/
inductive RaceStep where
  | read1 : RaceStep
  | inc1 : RaceStep
  | read2 : RaceStep
  | inc2 : RaceStep
deriving DecidableEq

/-- Effect of one interleaved step on the shared state. -/
def raceStep (s : GradRace) : RaceStep → GradRace
  | .read1 => { s with handle1 := some s.next }
  | .inc1 => { s with next := s.next + 1 }
  | .read2 => { s with handle2 := some s.next }
  | .inc2 => { s with next := s.next + 1 }

/-- Run a schedule from the initial state (`LinearGradient.next = 1`,
neither constructor has read yet). -/
def raceRun (sched : List RaceStep) : GradRace :=
  sched.foldl raceStep { next := 1, handle1 := none, handle2 := none }

/-- Whether a step belongs to thread 1. -/
def isThread1 : RaceStep → Bool
  | .read1 => true
  | .inc1 => true
  | _ => false

/-- A schedule is a valid interleaving of the two constructor bodies when
each thread's steps occur in program order: read its handle first, then
increment the shared counter. -/
def validInterleaving (sched : List RaceStep) : Bool :=
  (sched.filter isThread1 == [RaceStep.read1, RaceStep.inc1]) &&
  (sched.filter (fun st => !isThread1 st) == [RaceStep.read2, RaceStep.inc2])

/-- Whether `pat` occurs at the head of `l`. -/
def startsWithChars : List Char → List Char → Bool
  | [], _ => true
  | _ :: _, [] => false
  | p :: ps, c :: cs => p == c && startsWithChars ps cs

/-- Whether `pat` occurs anywhere inside `l`. -/
def hasSubChars (pat : List Char) : List Char → Bool
  | [] => pat.isEmpty
  | c :: cs => startsWithChars pat (c :: cs) || hasSubChars pat cs

/-- Whether the string `pat` occurs as a contiguous substring of `s`. -/
def strContainsStr (s pat : String) : Bool :=
  hasSubChars pat.toList s.toList

theorem svgReplay_append (l₁ l₂ : List DCommand) (s : SvgState) :
    svgReplay s (l₁ ++ l₂) = (svgReplay s l₁).bind (fun t => svgReplay t l₂) := by
  induction l₁ generalizing s with
  | nil => simp [svgReplay]
  | cons c cs ih =>
      simp only [List.cons_append, svgReplay]
      cases svgStep s c with
      | none => simp
      | some s' => simpa using ih s'

theorem svgStep_stack_eq {c : DCommand} (h₁ : isSR c = false) {s s' : SvgState}
    (h : svgStep s c = some s') : s'.stack = s.stack := by
  cases c <;> simp only [svgStep] at h <;> try simp [isSR] at h₁
  all_goals try (injection h with h; subst h; rfl)
  all_goals try (split at h <;> try (injection h with h; subst h; rfl)) <;> try simp_all
  all_goals (simp only [Option.map_eq_some'] at h; obtain ⟨a, -, rfl⟩ := h; rfl)

theorem neutral_stack {m : List DCommand} (hm : Neutral m) :
    ∀ {s s' : SvgState}, svgReplay s m = some s' → s'.stack = s.stack := by
  induction hm with
  | nil =>
      intro s s' h
      simp only [svgReplay, Option.some.injEq] at h
      subst h; rfl
  | cons_other hc _ ih =>
      intro s s' h
      simp only [svgReplay] at h
      cases hstep : svgStep s _ with
      | none => rw [hstep] at h; cases h
      | some s₁ =>
          rw [hstep] at h
          exact (ih h).trans (svgStep_stack_eq hc hstep)
  | block _ _ ih₁ ih₂ =>
      intro s s' h
      simp only [List.cons_append] at h
      simp only [svgReplay, svgStep] at h
      rw [svgReplay_append] at h
      cases h₂ : svgReplay _ _ with
      | none => rw [h₂] at h; cases h
      | some s₂ =>
          rw [h₂] at h
          have hst : s₂.stack = s.live :: s.stack := by simpa using ih₁ h₂
          simp only [Option.bind, svgReplay, svgStep, hst] at h
          simpa using ih₂ h

theorem scoped_live {cs : List DCommand} (hcs : Scoped cs) :
    ∀ {s s' : SvgState}, svgReplay s cs = some s' → s'.live = s.live ∧ s'.stack = s.stack := by
  induction hcs with
  | nil =>
      intro s s' h
      simp only [svgReplay, Option.some.injEq] at h
      subst h; exact ⟨rfl, rfl⟩
  | block hm _ ih =>
      intro s s' h
      simp only [List.cons_append] at h
      simp only [svgReplay, svgStep] at h
      rw [svgReplay_append] at h
      cases h₂ : svgReplay _ _ with
      | none => rw [h₂] at h; cases h
      | some s₂ =>
          rw [h₂] at h
          have hst : s₂.stack = s.live :: s.stack := by simpa using neutral_stack hm h₂
          simp only [Option.bind, svgReplay, svgStep, hst] at h
          simpa using ih h

/-- C1 (amended).  For every command sequence built from balanced
`save`/`restore` blocks in which every other command sits strictly inside
at least one open save scope, a successful `to_svg` replay ends with
every live-state field of the vector interpreter (path, transform list,
fill style, stroke style, line cap, line join, line width, line dash,
font style/weight/size/family, text anchor, text baseline, closers)
equal to its initial default value. -/
theorem c1_balanced_scoped_restores_defaults (cs : List DCommand) (s' : SvgState)
    (hc : Scoped cs) (h : svgReplay initSvgState cs = some s') :
    s'.live = initLive := by
  simpa [initSvgState] using (scoped_live hc h).1

/-- C1 counterexample.  The sequence `[save, restore, fillStyle "red"]`
has balanced save/restore commands, its replay succeeds, and yet the
final live state differs from the defaults (the fill style is `"red"`),
so balance alone does not give the claimed round-trip. -/
theorem c1_balance_alone_insufficient :
    srBalanced [DCommand.save, DCommand.restore, DCommand.fillStyle "red"] = true ∧
    (svgReplay initSvgState [DCommand.save, DCommand.restore, DCommand.fillStyle "red"]).isSome = true ∧
    (svgReplay initSvgState [DCommand.save, DCommand.restore, DCommand.fillStyle "red"]).map
      (fun s => s.live) ≠ some initLive := by
  refine ⟨rfl, rfl, ?_⟩
  decide

/-- C1 witness: a concrete scoped sequence that mutates the fill style
inside its save scope and ends back at the defaults. -/
theorem c1_balanced_scoped_restores_defaults_witness :
    (svgReplay initSvgState [DCommand.save, DCommand.fillStyle "red", DCommand.restore]).map
      (fun s => s.live) = some initLive := by
  cases h : svgReplay initSvgState [DCommand.save, DCommand.fillStyle "red", DCommand.restore] with
  | none => exact absurd h (by decide)
  | some s' =>
      have hs : Scoped (DCommand.save :: [DCommand.fillStyle "red"] ++ DCommand.restore :: []) :=
        Scoped.block (Neutral.cons_other (by decide) Neutral.nil) Scoped.nil
      simp [c1_balanced_scoped_restores_defaults _ _ hs h]

/-- C9 (confirmed).  `arc` and `arcTo` commands are no-ops in `to_svg`:
each leaves the whole interpreter state (live fields, path, `defs` and
body accumulators, clip counter, context stack, pending gradient)
unchanged, and inserting either anywhere in a buffer does not change the
output document. -/
theorem c9_arc_arcTo_noop (pre post : List DCommand) (x y r sa ea x1 y1 x2 y2 r2 : ℚ)
    (ac : Bool) (size : SizeQ) (viewbox : ViewboxQ) (s : SvgState) :
    svgStep s (DCommand.arc x y r sa ea ac) = some s ∧
    svgStep s (DCommand.arcTo x1 y1 x2 y2 r2) = some s ∧
    to_svg_commands (pre ++ DCommand.arc x y r sa ea ac :: post) size viewbox
      = to_svg_commands (pre ++ post) size viewbox ∧
    to_svg_commands (pre ++ DCommand.arcTo x1 y1 x2 y2 r2 :: post) size viewbox
      = to_svg_commands (pre ++ post) size viewbox := by
  refine ⟨rfl, rfl, ?_, ?_⟩
  · unfold to_svg_commands
    rw [svgReplay_append, svgReplay_append]
    have harc : ∀ t : SvgState,
        svgReplay t (DCommand.arc x y r sa ea ac :: post) = svgReplay t post := by
      intro t; simp [svgReplay, svgStep]
    simp only [harc]
  · unfold to_svg_commands
    rw [svgReplay_append, svgReplay_append]
    have harcTo : ∀ t : SvgState,
        svgReplay t (DCommand.arcTo x1 y1 x2 y2 r2 :: post) = svgReplay t post := by
      intro t; simp [svgReplay, svgStep]
    simp only [harcTo]

/-- C2 (confirmed).  `copy_from` fails its assertions whenever either
buffer has a non-zero save depth; when both depths are zero it succeeds
and the receiving buffer's command sequence afterwards equals the source
buffer's command sequence in full. -/
theorem c2_copy_from_precondition (a b : DrawingContext) :
    (a.save_count ≠ 0 ∨ b.save_count ≠ 0 → a.copy_from b = none) ∧
    (a.save_count = 0 → b.save_count = 0 →
      a.copy_from b = some { a with commands := b.commands } ∧
      (a.copy_from b).map DrawingContext.commands = some b.commands) := by
  constructor
  · intro h
    unfold DrawingContext.copy_from
    rw [if_neg]
    rintro ⟨h1, h2⟩
    rcases h with h | h <;> exact h (by assumption)
  · intro h1 h2
    unfold DrawingContext.copy_from
    rw [if_pos ⟨h1, h2⟩]
    exact ⟨rfl, rfl⟩

/-- C2 witness: a depth-1 receiver fails; two depth-0 buffers succeed and
the receiver takes over the source's commands. -/
theorem c2_copy_from_precondition_witness :
    DrawingContext.copy_from ⟨[], 1, false⟩ ⟨[DCommand.fill], 0, false⟩ = none ∧
    (DrawingContext.copy_from ⟨[], 0, false⟩ ⟨[DCommand.fill], 0, false⟩).map
      DrawingContext.commands = some [DCommand.fill] :=
  ⟨(c2_copy_from_precondition ⟨[], 1, false⟩ ⟨[DCommand.fill], 0, false⟩).1
      (Or.inl (by decide)),
   ((c2_copy_from_precondition ⟨[], 0, false⟩ ⟨[DCommand.fill], 0, false⟩).2 rfl rfl).2⟩

theorem applyOps_save_count (ops : List BufOp) :
    ∀ dc dc', applyOps dc ops = some dc' → dc'.save_count = save_count_spec dc.save_count ops := by
  induction ops with
  | nil =>
      intro dc dc' h
      simp only [applyOps, Option.some.injEq] at h
      subst h
      simp [save_count_spec]
  | cons op rest ih =>
      intro dc dc' h
      simp only [applyOps] at h
      cases hop : applyOp dc op with
      | none => rw [hop] at h; cases h
      | some d₂ =>
          rw [hop] at h
          have hrest := ih d₂ dc' h
          cases op with
          | save =>
              injection hop with hop
              subst hop
              simpa [save_count_spec, DrawingContext.save] using hrest
          | restore =>
              injection hop with hop
              subst hop
              simpa [save_count_spec, DrawingContext.restore] using hrest
          | clear =>
              injection hop with hop
              subst hop
              simpa [save_count_spec, DrawingContext.clear] using hrest
          | copyFrom src =>
              simp only [applyOp, DrawingContext.copy_from] at hop
              split at hop
              · rename_i hcond
                injection hop with hop
                subst hop
                simpa [save_count_spec, hcond.1] using hrest
              · cases hop

/-- C10 (confirmed).  Over any lifetime of buffer operations starting
from a fresh buffer, `save_count` equals the number of `save` calls
minus the number of `restore` calls since construction, the last
`clear`, or the last successful `copy_from`; and `restore` decrements
unconditionally, without a lower bound and without error. -/
theorem c10_save_count_bookkeeping :
    (∀ (ops : List BufOp) (dc' : DrawingContext),
      applyOps initDrawingContext ops = some dc' → dc'.save_count = save_count_spec 0 ops) ∧
    (∀ dc : DrawingContext, applyOp dc BufOp.restore =
      some { dc with commands := dc.commands ++ [DCommand.restore],
                     save_count := dc.save_count - 1 }) := by
  constructor
  · intro ops dc' h
    simpa [initDrawingContext] using applyOps_save_count ops initDrawingContext dc' h
  · intro dc
    rfl

/-- C10 witness: two unmatched restores run without error and leave the
counter at `-2`, matching the spec-side count. -/
theorem c10_save_count_bookkeeping_witness :
    (applyOps initDrawingContext [BufOp.restore, BufOp.restore]).map DrawingContext.save_count
      = some (save_count_spec 0 [BufOp.restore, BufOp.restore]) ∧
    save_count_spec 0 [BufOp.restore, BufOp.restore] = -2 := by
  constructor
  · cases h : applyOps initDrawingContext [BufOp.restore, BufOp.restore] with
    | none => exact absurd h (by decide)
    | some dc' =>
        simp [c10_save_count_bookkeeping.1 [BufOp.restore, BufOp.restore] dc' h]
  · decide

/-- C8 (amended).  `begin_layer` and `end_layer` are no-ops on an empty
layer id (no storage access, no error); with a non-empty id each
delegates to the storage collaborator, passing the buffer itself, and
raises when no storage is configured.  `draw_layer` has no empty-id
guard: it always delegates, and raises whenever no storage collaborator
is configured, whatever the id. -/
theorem c8_layer_delegation (dc : DrawingContext) (layerId : String) :
    (dc.begin_layer "" = some [] ∧ dc.end_layer "" = some []) ∧
    (layerId ≠ "" → dc.storage = true →
      dc.begin_layer layerId = some [LayerCall.beginCall dc.commands layerId] ∧
      dc.end_layer layerId = some [LayerCall.endCall dc.commands layerId]) ∧
    (layerId ≠ "" → dc.storage = false →
      dc.begin_layer layerId = none ∧ dc.end_layer layerId = none) ∧
    (dc.storage = true → dc.draw_layer layerId = some [LayerCall.drawCall dc.commands layerId]) ∧
    (dc.storage = false → dc.draw_layer layerId = none) := by
  refine ⟨⟨?_, ?_⟩, ?_, ?_, ?_, ?_⟩
  · simp [DrawingContext.begin_layer]
  · simp [DrawingContext.end_layer]
  · intro h1 h2
    simp [DrawingContext.begin_layer, DrawingContext.end_layer, h1, h2]
  · intro h1 h2
    simp [DrawingContext.begin_layer, DrawingContext.end_layer, h1, h2]
  · intro h2
    simp [DrawingContext.draw_layer, h2]
  · intro h2
    simp [DrawingContext.draw_layer, h2]

/-- C8 counterexample.  Calling `draw_layer` with an empty id on a buffer
with no storage collaborator raises (`None.draw_layer` is an
AttributeError): it is neither a no-op nor error-free, contradicting the
claim that all three layer methods ignore an empty id. -/
theorem c8_draw_layer_empty_id_raises :
    DrawingContext.draw_layer initDrawingContext "" = none := rfl

/-- C8 witness: with storage configured, a non-empty id delegates,
passing the buffer; without storage, `draw_layer` raises. -/
theorem c8_layer_delegation_witness :
    DrawingContext.begin_layer ⟨[], 0, true⟩ "a" = some [LayerCall.beginCall [] "a"] ∧
    DrawingContext.draw_layer ⟨[], 0, false⟩ "x" = none :=
  ⟨((c8_layer_delegation ⟨[], 0, true⟩ "a").2.1 (by decide) rfl).1,
   (c8_layer_delegation ⟨[], 0, false⟩ "x").2.2.2.2 rfl⟩

/-- C5 (code bug).  `LinearGradient.__init__` reads the class counter and
increments it in two separate unsynchronized statements (no lock is
held, unlike the image counter in `draw_image`), so the valid
interleaving read-1, read-2, increment-1, increment-2 of two concurrent
constructions hands both gradients the same handle 1 — refuting the
claimed guarded, collision-free handle generation. -/
theorem c5_gradient_handle_race :
    validInterleaving [RaceStep.read1, RaceStep.read2, RaceStep.inc1, RaceStep.inc2] = true ∧
    (raceRun [RaceStep.read1, RaceStep.read2, RaceStep.inc1, RaceStep.inc2]).handle1 = some 1 ∧
    (raceRun [RaceStep.read1, RaceStep.read2, RaceStep.inc1, RaceStep.inc2]).handle2 = some 1 :=
  ⟨rfl, rfl, rfl⟩

/-- Concatenation of `k` copies of a string, one per emitted element. -/
def repStr : Nat → String → String
  | 0, _ => ""
  | n + 1, e => e ++ repStr n e

/-- The path element `to_svg` emits for one `stroke` command when a
stroke style is set, as a function of the live state. -/
def strokeElemStr (st : String) (l : LiveState) : String :=
  "<path d='" ++ l.path ++ "' fill='transparent' stroke='" ++ st ++ "' stroke-width='"
    ++ numStr l.lineWidth ++ "' stroke-linejoin='" ++ l.lineJoin ++ "' stroke-linecap='"
    ++ l.lineCap ++ "'" ++ dashStr l.lineDash ++ transformStr l.transform ++ " />"

theorem svgStep_path {c : DCommand} (hc : isPathCmd c = true) (s : SvgState) :
    svgStep s c = some { s with live := { s.live with path := s.live.path ++ pathToken c } } := by
  cases c <;> simp only [isPathCmd] at hc <;> try exact absurd hc (by decide)
  · rfl
  · simp [svgStep, pathToken, String.append_assoc]
  · simp [svgStep, pathToken, String.append_assoc]

theorem svgReplay_pathCmds (l : List DCommand) :
    ∀ s : SvgState, (∀ c ∈ l, isPathCmd c = true) →
      svgReplay s l = some { s with live := { s.live with path := s.live.path ++ pathTokens l } } := by
  induction l with
  | nil =>
      intro s _
      simp [svgReplay, pathTokens, String.append_empty]
  | cons c rest ih =>
      intro s h
      have hc : isPathCmd c = true := h c (by simp)
      simp only [svgReplay, svgStep_path hc s]
      rw [ih _ (fun d hd => h d (List.mem_cons_of_mem _ hd))]
      simp [pathTokens, String.append_assoc]

theorem svgStep_stroke {s : SvgState} {st : String} (h : s.live.strokeStyle = some st) :
    svgStep s DCommand.stroke = some { s with svg := s.svg ++ strokeElemStr st s.live } := by
  simp only [svgStep, h, strokeElemStr, String.append_assoc]

theorem svgReplay_strokes (k : Nat) :
    ∀ (s : SvgState) (st : String), s.live.strokeStyle = some st →
      svgReplay s (List.replicate k DCommand.stroke)
        = some { s with svg := s.svg ++ repStr k (strokeElemStr st s.live) } := by
  induction k with
  | zero =>
      intro s st _
      simp [svgReplay, List.replicate, repStr, String.append_empty]
  | succ n ih =>
      intro s st h
      simp only [List.replicate, svgReplay, svgStep_stroke h]
      rw [ih { s with svg := s.svg ++ strokeElemStr st s.live } st h]
      simp [repStr, String.append_assoc]

/-- Interpreter state after replaying `strokeStyle color` and
`beginPath` from the initial state. -/
def c7Start (color : String) : SvgState :=
  ⟨"", "", { initLive with strokeStyle := some color }, 1, [], none, []⟩

/-- Interpreter state after additionally replaying the path commands. -/
def c7Mid (color : String) (pathCmds : List DCommand) : SvgState :=
  ⟨"", "", { initLive with strokeStyle := some color, path := "" ++ pathTokens pathCmds },
    1, [], none, []⟩

/-- C7 (confirmed).  A buffer that sets a stroke style, begins a path,
appends any sequence of move-to/line-to/close-path commands and then
issues `k ≥ 1` `stroke()` calls replays to a body consisting of exactly
one stroke-rendering path element per `stroke()` call, each with path
data exactly the concatenation, in append order, of the tokens of the
appended points. -/
theorem c7_stroke_per_call (color : String) (pathCmds : List DCommand) (k : Nat)
    (hp : ∀ c ∈ pathCmds, isPathCmd c = true) (_hk : 1 ≤ k) :
    (svgReplay initSvgState
        (DCommand.strokeStyle color :: DCommand.beginPath ::
          (pathCmds ++ List.replicate k DCommand.stroke))).map (fun s => s.svg)
      = some (repStr k ("<path d='" ++ pathTokens pathCmds ++ "' fill='transparent' stroke='"
          ++ color ++ "' stroke-width='1.0' stroke-linejoin='bevel' stroke-linecap='square' />")) := by
  have e1 : svgReplay initSvgState
      (DCommand.strokeStyle color :: DCommand.beginPath ::
        (pathCmds ++ List.replicate k DCommand.stroke))
      = svgReplay (c7Start color) (pathCmds ++ List.replicate k DCommand.stroke) := rfl
  have e3 : svgReplay (c7Start color) pathCmds = some (c7Mid color pathCmds) := by
    rw [svgReplay_pathCmds pathCmds (c7Start color) hp]
    rfl
  have e4 : svgReplay (c7Mid color pathCmds) (List.replicate k DCommand.stroke)
      = some { c7Mid color pathCmds with
          svg := "" ++ repStr k (strokeElemStr color (c7Mid color pathCmds).live) } :=
    svgReplay_strokes k (c7Mid color pathCmds) color rfl
  have e5 : strokeElemStr color (c7Mid color pathCmds).live
      = "<path d='" ++ pathTokens pathCmds ++ "' fill='transparent' stroke='" ++ color
          ++ "' stroke-width='1.0' stroke-linejoin='bevel' stroke-linecap='square' />" := by
    simp only [strokeElemStr, c7Mid, initLive, dashStr, transformStr]
    simp only [String.append_assoc, String.empty_append, String.append_empty]
    rfl
  rw [e1, svgReplay_append, e3]
  simp only [Option.some_bind]
  rw [e4, e5]
  simp [String.empty_append]

/-- C7 witness: one concrete path, two strokes, two identical elements. -/
theorem c7_stroke_per_call_witness :
    (svgReplay initSvgState
        (DCommand.strokeStyle "black" :: DCommand.beginPath ::
          ([DCommand.moveTo 0 1, DCommand.lineTo 2 3, DCommand.closePath]
            ++ List.replicate 2 DCommand.stroke))).map (fun s => s.svg)
      = some (repStr 2 ("<path d='"
          ++ pathTokens [DCommand.moveTo 0 1, DCommand.lineTo 2 3, DCommand.closePath]
          ++ "' fill='transparent' stroke='" ++ "black"
          ++ "' stroke-width='1.0' stroke-linejoin='bevel' stroke-linecap='square' />")) :=
  c7_stroke_per_call "black" [DCommand.moveTo 0 1, DCommand.lineTo 2 3, DCommand.closePath] 2
    (by decide) (by decide)

/-- The invariant behind the `fill` no-op: the live fill style is unset
and every snapshot on the context stack has an unset fill style. -/
def noFillInv (s : SvgState) : Prop :=
  s.live.fillStyle = none ∧ ∀ f ∈ s.stack, f.fillStyle = none

theorem svgStep_noFill {c : DCommand} (hc : isFillStyleCmd c = false) {s s' : SvgState}
    (h : svgStep s c = some s') (hinv : noFillInv s) : noFillInv s' := by
  obtain ⟨h1, h2⟩ := hinv
  cases c <;> simp only [svgStep] at h <;> try simp [isFillStyleCmd] at hc
  case save =>
      injection h with h
      subst h
      refine ⟨h1, ?_⟩
      intro f hf
      rcases List.mem_cons.mp hf with rfl | hf
      · exact h1
      · exact h2 f hf
  case restore =>
      cases hstack : s.stack with
      | nil => rw [hstack] at h; cases h
      | cons f rest =>
          rw [hstack] at h
          injection h with h
          subst h
          refine ⟨h2 f (by rw [hstack]; exact List.mem_cons_self f rest), ?_⟩
          intro f' hf'
          exact h2 f' (by rw [hstack]; exact List.mem_cons_of_mem f hf')
  case fill =>
      rw [h1] at h
      injection h with h
      subst h
      exact ⟨h1, h2⟩
  case font =>
      obtain ⟨a, -, rfl⟩ := Option.map_eq_some'.mp h
      exact ⟨h1, h2⟩
  all_goals try (injection h with h; subst h; exact ⟨h1, h2⟩)
  all_goals (split at h <;> try (injection h with h; subst h; exact ⟨h1, h2⟩))
  all_goals cases h

theorem svgReplay_filter_fill (cs : List DCommand) :
    ∀ s : SvgState, noFillInv s → (∀ c ∈ cs, isFillStyleCmd c = false) →
      svgReplay s cs = svgReplay s (cs.filter (fun c => !isFillCmd c)) := by
  induction cs with
  | nil => intro s _ _; rfl
  | cons c rest ih =>
      intro s hinv hcs
      by_cases hf : isFillCmd c = true
      · have hceq : c = DCommand.fill := by
          cases c <;> first | rfl | simp [isFillCmd] at hf
        subst hceq
        have hfill : svgStep s DCommand.fill = some s := by
          simp only [svgStep, hinv.1]
        simp only [svgReplay, hfill, List.filter_cons, isFillCmd, Bool.not_true,
          Bool.false_eq_true, if_false]
        exact ih s hinv (fun d hd => hcs d (List.mem_cons_of_mem _ hd))
      · have hf' : isFillCmd c = false := by revert hf; cases isFillCmd c <;> simp
        have hstyle : isFillStyleCmd c = false := hcs c (List.mem_cons_self c rest)
        simp only [svgReplay, List.filter_cons, hf', Bool.not_false, if_true]
        cases hstep : svgStep s c with
        | none => simp only [svgReplay, hstep]
        | some s' =>
            simp only [svgReplay, hstep]
            exact ih s' (svgStep_noFill hstyle hstep hinv)
              (fun d hd => hcs d (List.mem_cons_of_mem _ hd))

theorem to_js_append (l₁ l₂ : List DCommand) :
    to_js_commands (l₁ ++ l₂) = to_js_commands l₁ ++ to_js_commands l₂ := by
  unfold to_js_commands
  rw [List.map_append, String.join_eq, String.join_eq, String.join_eq, List.map_append,
    List.flatten_append]
  rfl

/-- C3 (amended).  When a buffer contains no fill-style command (color or
gradient), its `fill` commands are exact no-ops in `to_svg` — the replay
equals the replay of the buffer with all fills removed, so no path
element is emitted for them — while `to_js` emits a `ctx.fill();` call
for every `fill` regardless (the canvas interpreter is stateless and
delegates style tracking to the target canvas). -/
theorem c3_fill_without_style (cs : List DCommand)
    (h : ∀ c ∈ cs, isFillStyleCmd c = false) :
    svgReplay initSvgState cs = svgReplay initSvgState (cs.filter (fun c => !isFillCmd c)) ∧
    (∀ cs' : List DCommand,
      to_js_commands (cs' ++ [DCommand.fill]) = to_js_commands cs' ++ "ctx.fill();") := by
  constructor
  · exact svgReplay_filter_fill cs initSvgState ⟨rfl, by intro f hf; cases hf⟩ h
  · intro cs'
    rw [to_js_append]
    rfl

/-- C3 counterexample.  A buffer containing only `fill()` with no prior
fill-style still produces a fill call in the canvas interpreter: `to_js`
emits `ctx.fill();`, not nothing, refuting the claim's `to_js` half. -/
theorem c3_to_js_fill_emitted :
    to_js_commands [DCommand.fill] = "ctx.fill();" ∧ "ctx.fill();" ≠ "" :=
  ⟨rfl, by decide⟩

/-- C3 witness: a style-free buffer with a fill replays identically to
the same buffer with the fill removed. -/
theorem c3_fill_without_style_witness :
    svgReplay initSvgState [DCommand.beginPath, DCommand.rect 0 0 1 1, DCommand.fill]
      = svgReplay initSvgState
          ([DCommand.beginPath, DCommand.rect 0 0 1 1, DCommand.fill].filter
            (fun c => !isFillCmd c)) :=
  (c3_fill_without_style [DCommand.beginPath, DCommand.rect 0 0 1 1, DCommand.fill]
    (by decide)).1

/-- C4 (amended).  `to_svg` decomposes `rect(10,20,30,40)` into the four
corners (10,20), (40,20), (40,60), (10,60) followed by a close, emitted
as path data in the fill element; `to_js`, by contrast, translates the
rect command to the target's native `ctx.rect` primitive. -/
theorem c4_rect_corners :
    (svgReplay initSvgState
        [DCommand.fillStyle "red", DCommand.rect 10 20 30 40, DCommand.fill]).map (fun s => s.svg)
      = some "<path d=' M 10.0 20.0 L 40.0 20.0 L 40.0 60.0 L 10.0 60.0 Z' fill='red' stroke='transparent' />" ∧
    to_js_commands [DCommand.fillStyle "red", DCommand.rect 10 20 30 40, DCommand.fill]
      = "ctx.fillStyle = 'red';ctx.rect(10.0, 20.0, 30.0, 40.0);ctx.fill();" := by
  constructor
  · have hsum1 : (10 : ℚ) + 30 = 40 := by norm_num
    have hsum2 : (20 : ℚ) + 40 = 60 := by norm_num
    simp only [svgReplay, svgStep, hsum1, hsum2]
    decide
  · decide

/-- C4 counterexample.  The canvas interpreter's fill output contains the
native rectangle call `ctx.rect(` and nowhere the decomposed corner
coordinate `60` (from (40,60)/(10,60)), refuting the claim that both
interpreters decompose `rect` into corner segments. -/
theorem c4_to_js_native_rect :
    strContainsStr
        (to_js_commands [DCommand.fillStyle "red", DCommand.rect 10 20 30 40, DCommand.fill])
        "ctx.rect(" = true ∧
    strContainsStr
        (to_js_commands [DCommand.fillStyle "red", DCommand.rect 10 20 30 40, DCommand.fill])
        "60" = false := by
  constructor
  · rfl
  · rfl

/-- The reset font fields at the start of a `font` command. -/
def initFontState : FontState :=
  { style := none, weight := none, size := none, family := none }

/-- A font token on which Python `int()` cannot raise: anything except a
px-suffixed token whose stem is not an integer literal. -/
def wellFormedTok (tok : String) : Bool :=
  if tok = "italic" ∨ tok = "bold" then true
  else if endsWithPx tok then (pyInt (dropLast2 tok)).isSome
  else true

/-- Modelled from the claim's words (the refinement's specification
side): `italic` sets the style, `bold` the weight, a token ending in the
unit suffix with a positive leading integer the size, and any other
token the family, the last such token winning.  Total — it has no raising
case. -/
def fontTokStepClaim (f : FontState) (tok : String) : FontState :=
  if tok = "italic" then { f with style := some "italic" }
  else if tok = "bold" then { f with weight := some "bold" }
  else if endsWithPx tok && decide (0 < (pyInt (dropLast2 tok)).getD 0) then
    { f with size := some ((pyInt (dropLast2 tok)).getD 0) }
  else { f with family := some tok }

theorem fontTokStep_eq_claim {tok : String} (h : wellFormedTok tok = true) (f : FontState) :
    fontTokStep f tok = some (fontTokStepClaim f tok) := by
  by_cases hi : tok = "italic"
  · simp [fontTokStep, fontTokStepClaim, hi]
  by_cases hb : tok = "bold"
  · simp [fontTokStep, fontTokStepClaim, hi, hb]
  by_cases hpx : endsWithPx tok = true
  · have hsome : (pyInt (dropLast2 tok)).isSome = true := by
      simpa [wellFormedTok, hi, hb, hpx] using h
    obtain ⟨n, hn⟩ := Option.isSome_iff_exists.mp hsome
    by_cases hpos : 0 < n
    · simp [fontTokStep, fontTokStepClaim, hi, hb, hpx, hn, hpos]
    · simp [fontTokStep, fontTokStepClaim, hi, hb, hpx, hn, hpos]
  · have hpx' : endsWithPx tok = false := by
      revert hpx; cases endsWithPx tok <;> simp
    simp [fontTokStep, fontTokStepClaim, hi, hb, hpx']

theorem parseFont_eq_claim (toks : List String) :
    ∀ f : FontState, (∀ tok ∈ toks, wellFormedTok tok = true) →
      toks.foldlM fontTokStep f = some (toks.foldl fontTokStepClaim f) := by
  induction toks with
  | nil => intro f _; rfl
  | cons t ts ih =>
      intro f h
      rw [List.foldlM_cons, fontTokStep_eq_claim (h t (List.mem_cons_self t ts)) f]
      rw [List.foldl_cons]
      simpa using ih (fontTokStepClaim f t) (fun tok htok => h tok (List.mem_cons_of_mem _ htok))

/-- C6 (amended).  The font shorthand parser splits on spaces and folds
left-to-right with `italic` → style, `bold` → weight, a px token with a
positive integer stem → size, and any other token — including a px token
with a non-positive integer stem — → family, last token winning; but a px
token whose stem is not an integer literal makes the replay raise rather
than set the family.  On well-formed tokens the parser equals the
claim-side fold, and `font("italic bold 14px Arial")` yields
style=italic, weight=bold, size=14, family=Arial. -/
theorem c6_font_shorthand (shorthand : String)
    (h : ∀ tok ∈ fontTokens shorthand, wellFormedTok tok = true) :
    parseFont shorthand = some ((fontTokens shorthand).foldl fontTokStepClaim initFontState) ∧
    (svgReplay initSvgState [DCommand.font "italic bold 14px Arial"]).map
      (fun t => (t.live.fontStyle, t.live.fontWeight, t.live.fontSize, t.live.fontFamily))
      = some (some "italic", some "bold", some 14, some "Arial") := by
  constructor
  · exact parseFont_eq_claim (fontTokens shorthand) initFontState h
  · decide

/-- C6 counterexample.  The token `"apx"` is neither `italic`, `bold`,
nor a px token with a positive leading integer, so the claim files it
under "any other token → family"; the code instead evaluates
`int("a")`, which raises ValueError and aborts the replay with no state
at all. -/
theorem c6_font_bad_px_token_raises :
    parseFont "apx" = none ∧ svgReplay initSvgState [DCommand.font "apx"] = none := by
  constructor
  · decide
  · decide

/-- C6 witness: the claim's own shorthand is well-formed, so the theorem
applies to it. -/
theorem c6_font_shorthand_witness :
    parseFont "italic bold 14px Arial"
      = some ((fontTokens "italic bold 14px Arial").foldl fontTokStepClaim initFontState) :=
  (c6_font_shorthand "italic bold 14px Arial" (by decide)).1
